import Mathlib

/-!  Verification of the GPM raster-extraction pipeline
  (app/services/gpm_service.py together with the binary encoder in
  app/api/routers/gpm.py).

  Modelling choices:
  * Numeric field values are exact rationals.  The source works on float32
    fields, and a float32 cast of an already-float32 value is the identity,
    so the astype(np.float32) steps are modelled as identities.
  * Filesystem and xarray effects (path existence, the grouped and the
    ungrouped open strategy, a raising selection) are supplied by an
    explicit environment record.
  * The lifecycle of the open dataset handle is tracked by an event trace:
    each open attempt and each close appends an event.
  * Byte strings are lists of byte values; a float32 is carried as its
    32-bit pattern when serialized.
-/

namespace Gpm

/-- Bounding box exactly as the router passes it to the service:
    a record with top, bottom, left and right edges. -/
structure Bounds where
  top : Rat
  bottom : Rat
  left : Rat
  right : Rat
deriving DecidableEq, Repr

/-- The two coordinate ranges the cropper builds (gpm_service.py lines 31-32):
    lat_slice = slice(min(bottom, top), max(bottom, top)) and
    lon_slice = slice(min(left, right), max(left, right)). -/
structure Slices where
  latLo : Rat
  latHi : Rat
  lonLo : Rat
  lonHi : Rat
deriving DecidableEq, Repr

def cropSlices (b : Bounds) : Slices :=
  { latLo := min b.bottom b.top
    latHi := max b.bottom b.top
    lonLo := min b.left b.right
    lonHi := max b.left b.right }

/-- Corner swap: exchange the top and bottom edges. -/
def swapTB (b : Bounds) : Bounds :=
  { b with top := b.bottom, bottom := b.top }

/-- Corner swap: exchange the left and right edges. -/
def swapLR (b : Bounds) : Bounds :=
  { b with left := b.right, right := b.left }

/-- An open xarray dataset, reduced to what the pipeline reads from it:
    the variable names it contains, the latitude and longitude coordinate
    arrays, and the (already squeezed, two-dimensional) values of the
    precipitation variable. -/
structure Dataset where
  vars : List String
  lats : List Rat
  lons : List Rat
  values : List (List Rat)
deriving DecidableEq, Repr

/-- Index positions kept by a label slice over a coordinate array: xarray
    slice selection keeps the positions whose coordinate lies inside
    [lo, hi] (coordinates in GPM files are increasing). -/
def selIdx (coord : List Rat) (lo hi : Rat) : List Nat :=
  (List.range coord.length).filter
    (fun i => decide (lo ≤ coord.getD i 0) && decide (coord.getD i 0 ≤ hi))

/-- ds.sel({lat_name: lat_slice, lon_name: lon_slice}): restrict both
    coordinate arrays and the value grid to the selected positions. -/
def selDataset (ds : Dataset) (s : Slices) : Dataset :=
  { vars := ds.vars
    lats := (selIdx ds.lats s.latLo s.latHi).map (fun i => ds.lats.getD i 0)
    lons := (selIdx ds.lons s.lonLo s.lonHi).map (fun i => ds.lons.getD i 0)
    values := (selIdx ds.lats s.latLo s.latHi).map (fun i =>
      (selIdx ds.lons s.lonLo s.lonHi).map (fun j => (ds.values.getD i []).getD j 0)) }

/-- Element count of the selected variable, ds_cropped[var_name].size. -/
def varSize (ds : Dataset) : Nat :=
  (ds.values.map List.length).sum

/-- The error taxonomy of the pipeline: FileNotFoundError before opening,
    failure of both open strategies, ValueError when no known variable name
    is present, and the catch-all for anything else raised during
    extraction (here: np.max of an empty array). -/
inductive Err where
  | NotFound
  | OpenFailure
  | VariableNotFound
  | ProcessingFailure
deriving DecidableEq, Repr

/-- Handle-lifecycle events: the two open attempts and ds.close(). -/
inductive Event where
  | openGrouped
  | openUngrouped
  | close
deriving DecidableEq, Repr

/-- The effectful surroundings of one pipeline invocation: whether the
    resolved path exists, whether each xr.open_dataset strategy succeeds
    and what it yields, and whether ds.sel raises. -/
structure Env where
  pathExists : Bool
  groupedOpenOk : Bool
  ungroupedOpenOk : Bool
  dsGrouped : Dataset
  dsUngrouped : Dataset
  selRaises : Bool
deriving DecidableEq, Repr

/-- The shared opening prelude of all three service functions: raise
    FileNotFoundError when the path does not exist (before any open
    attempt), then try the grouped open and fall back to the ungrouped
    open; when both fail the second raise propagates (OpenFailure). -/
def openDataset (env : Env) : Except Err Dataset × List Event :=
  if env.pathExists = false then
    (Except.error Err.NotFound, [])
  else if env.groupedOpenOk then
    (Except.ok env.dsGrouped, [Event.openGrouped])
  else if env.ungroupedOpenOk then
    (Except.ok env.dsUngrouped, [Event.openGrouped, Event.openUngrouped])
  else
    (Except.error Err.OpenFailure, [Event.openGrouped, Event.openUngrouped])

/-- The fixed candidate list of precipitation-variable names. -/
def candidates : List String :=
  ["precipitationCal", "precipitation", "precip"]

/-- var_name = next((v for v in candidates if v in ds), None). -/
def resolveVar (ds : Dataset) : Option String :=
  candidates.find? (fun v => ds.vars.contains v)

/-- The selection inside try/except: env.selRaises models xarray raising
    on ds.sel; otherwise the slice selection is performed. -/
def trySel (env : Env) (ds : Dataset) (s : Slices) : Except Unit Dataset :=
  if env.selRaises then Except.error () else Except.ok (selDataset ds s)

/-- Crop fallback used by _extract_cloud_arrays and process_local_file:
    on a selection error, or when the selected variable has zero elements,
    keep the unmodified full dataset. -/
def cropFallbackSize (ds : Dataset) (sel : Except Unit Dataset) : Dataset :=
  match sel with
  | Except.ok c => if varSize c = 0 then ds else c
  | Except.error _ => ds

/-- Crop fallback used by get_sparse_cloud_data: only a selection error
    falls back to the full dataset; there is no zero-size check. -/
def cropNoSizeFallback (ds : Dataset) (sel : Except Unit Dataset) : Dataset :=
  match sel with
  | Except.ok c => c
  | Except.error _ => ds

/-- Shape of a two-dimensional array: (row count, column count), the
    column count read off the first row. -/
def shape2 (d : List (List Rat)) : Nat × Nat :=
  (d.length, (d.headD []).length)

/-- numpy transpose of a two-dimensional array: entry (j, i) of the result
    is entry (i, j) of the input. -/
def transposeIdx (d : List (List Rat)) : List (List Rat) :=
  (List.range (d.headD []).length).map (fun j => d.map (fun row => row.getD j 0))

/-- Orientation normalization:
    if data.shape == (len(lons), len(lats)): data = data.T. -/
def orientData (d : List (List Rat)) (lats lons : List Rat) : List (List Rat) :=
  if shape2 d = (lons.length, lats.length) then transposeIdx d else d

/-- Row part of np.where(data > threshold): indices (i, j) of the entries
    of one row (row index i, first column index j) that exceed t. -/
def rowWhere (t : Rat) (i : Nat) : Nat → List Rat → List (Nat × Nat)
  | _, [] => []
  | j, v :: vs => (if t < v then [(i, j)] else []) ++ rowWhere t i (j + 1) vs

/-- Grid part of np.where(data > threshold), rows scanned from index i. -/
def whereAux (t : Rat) : Nat → List (List Rat) → List (Nat × Nat)
  | _, [] => []
  | i, row :: rest => rowWhere t i 0 row ++ whereAux t (i + 1) rest

/-- np.where(data > threshold): the row-major list of index pairs of the
    entries strictly greater than the threshold. -/
def wherePairs (data : List (List Rat)) (t : Rat) : List (Nat × Nat) :=
  whereAux t 0 data

/-- valid_rain = data[y_idxs, x_idxs]: gather the values at the selected
    index pairs (the float32 cast is the identity here). -/
def validRain (data : List (List Rat)) (t : Rat) : List Rat :=
  (wherePairs data t).map (fun p => (data.getD p.1 []).getD p.2 0)

/-- valid_lats = lats[y_idxs]. -/
def validLats (data : List (List Rat)) (lats : List Rat) (t : Rat) : List Rat :=
  (wherePairs data t).map (fun p => lats.getD p.1 0)

/-- valid_lons = lons[x_idxs]. -/
def validLons (data : List (List Rat)) (lons : List Rat) (t : Rat) : List Rat :=
  (wherePairs data t).map (fun p => lons.getD p.2 0)

/-- np.max over the whole array; none when the array is empty, where numpy
    raises a ValueError. -/
def npMax (data : List (List Rat)) : Option Rat :=
  match data.flatten with
  | [] => none
  | x :: xs => some (xs.foldl max x)

/-- max_val = float(np.max(data)) if len(valid_rain) > 0 else 0.0. -/
def maxVal (data : List (List Rat)) (t : Rat) : Rat :=
  if 0 < (validRain data t).length then (npMax data).getD 0 else 0

/-- The four raw arrays returned by _extract_cloud_arrays. -/
structure CloudArrays where
  lats : List Rat
  lons : List Rat
  vals : List Rat
  maxVal : Rat
deriving DecidableEq, Repr

/-- Body of _extract_cloud_arrays after the slices are built: open,
    resolve the variable, crop with the size-zero fallback, normalize
    orientation, filter sparse points, compute max_val, close. -/
def extractCloudArraysS (env : Env) (s : Slices) (t : Rat) :
    Except Err CloudArrays × List Event :=
  match openDataset env with
  | (Except.error e, evs) => (Except.error e, evs)
  | (Except.ok ds, evs) =>
    match resolveVar ds with
    | none => (Except.error Err.VariableNotFound, evs)
    | some _ =>
      let cropped := cropFallbackSize ds (trySel env ds s)
      let data := orientData cropped.values cropped.lats cropped.lons
      (Except.ok
        { lats := validLats data cropped.lats t
          lons := validLons data cropped.lons t
          vals := validRain data t
          maxVal := maxVal data t },
       evs ++ [Event.close])

/-- _extract_cloud_arrays(filename, bounds, threshold): the result depends
    on the bounding box only through the two min/max slices. -/
def extractCloudArrays (env : Env) (b : Bounds) (t : Rat) :
    Except Err CloudArrays × List Event :=
  extractCloudArraysS env (cropSlices b) t

/-- The dense result (lats, lons, data) of process_local_file. -/
structure GridArrays where
  lats : List Rat
  lons : List Rat
  values : List (List Rat)
deriving DecidableEq, Repr

/-- Body of process_local_file after the slices are built: identical
    prelude and crop fallback, but the dense oriented grid is returned. -/
def processLocalFileS (env : Env) (s : Slices) :
    Except Err GridArrays × List Event :=
  match openDataset env with
  | (Except.error e, evs) => (Except.error e, evs)
  | (Except.ok ds, evs) =>
    match resolveVar ds with
    | none => (Except.error Err.VariableNotFound, evs)
    | some _ =>
      let cropped := cropFallbackSize ds (trySel env ds s)
      let data := orientData cropped.values cropped.lats cropped.lons
      (Except.ok { lats := cropped.lats, lons := cropped.lons, values := data },
       evs ++ [Event.close])

/-- process_local_file(filename, bounds). -/
def processLocalFile (env : Env) (b : Bounds) :
    Except Err GridArrays × List Event :=
  processLocalFileS env (cropSlices b)

/-- Round half to even of a rational to an integer, as numpy rounds. -/
def roundHalfEven (x : Rat) : Int :=
  let f := Int.floor x
  let r := x - f
  if r < 1 / 2 then f
  else if 1 / 2 < r then f + 1
  else if f % 2 = 0 then f else f + 1

/-- np.round(x, p): round half to even at p decimal places. -/
def npRound (p : Nat) (x : Rat) : Rat :=
  (roundHalfEven (x * 10 ^ p) : Rat) / 10 ^ p

/-- The JSON-friendly response built by get_sparse_cloud_data. -/
structure SparseResponse where
  lats : List Rat
  lons : List Rat
  vals : List Rat
  statsMax : Rat
  statsCount : Nat
deriving DecidableEq, Repr

/-- Body of get_sparse_cloud_data after the slices are built.  The crop
    has no size-zero fallback here; stats.max = float(np.max(data)) is
    unguarded, so an empty grid raises before ds.close() is reached. -/
def getSparseCloudDataS (env : Env) (s : Slices) (t : Rat) :
    Except Err SparseResponse × List Event :=
  match openDataset env with
  | (Except.error e, evs) => (Except.error e, evs)
  | (Except.ok ds, evs) =>
    match resolveVar ds with
    | none => (Except.error Err.VariableNotFound, evs)
    | some _ =>
      let cropped := cropNoSizeFallback ds (trySel env ds s)
      let data := orientData cropped.values cropped.lats cropped.lons
      match npMax data with
      | none => (Except.error Err.ProcessingFailure, evs)
      | some m =>
        (Except.ok
          { lats := (validLats data cropped.lats t).map (npRound 3)
            lons := (validLons data cropped.lons t).map (npRound 3)
            vals := (validRain data t).map (npRound 2)
            statsMax := m
            statsCount := (validRain data t).length },
         evs ++ [Event.close])

/-- get_sparse_cloud_data(filename, bounds, threshold). -/
def getSparseCloudData (env : Env) (b : Bounds) (t : Rat) :
    Except Err SparseResponse × List Event :=
  getSparseCloudDataS env (cropSlices b) t

/-- Little-endian four-byte encoding of a 32-bit word, as struct.pack
    and numpy tobytes produce on a little-endian host. -/
def leBytes4 (w : Nat) : List Nat :=
  [w % 256, w / 256 % 256, w / 65536 % 256, w / 16777216 % 256]

/-- arr.tobytes() for a float32 array: consecutive four-byte little-endian
    words, each value carried as its 32-bit pattern. -/
def f32Bytes (ws : List Nat) : List Nat :=
  (ws.map leBytes4).flatten

/-- The format=bin payload of the /data route:
    struct.pack('<If', count, max_val) followed by
    lats.tobytes() + lons.tobytes() + vals.tobytes(), count = len(vals). -/
def binPayload (lats lons vals : List Nat) (maxBits : Nat) : List Nat :=
  leBytes4 vals.length ++ leBytes4 maxBits ++
    f32Bytes lats ++ f32Bytes lons ++ f32Bytes vals

/-- Read n little-endian 32-bit words off the front of a byte list,
    returning the words and the remaining bytes. -/
def readWordsLE : Nat → List Nat → Option (List Nat × List Nat)
  | 0, bs => some ([], bs)
  | n + 1, b0 :: b1 :: b2 :: b3 :: bs =>
    match readWordsLE n bs with
    | some (ws, rest) => some ((b0 + 256 * b1 + 65536 * b2 + 16777216 * b3) :: ws, rest)
    | none => none
  | _ + 1, _ => none

/-- Decoder of the binary payload: read the count and the maximum from the
    8-byte header, then three arrays of count words each, and require that
    this exactly consumes the byte string. -/
def decodeBin (bs : List Nat) : Option (Nat × Nat × List Nat × List Nat × List Nat) :=
  match readWordsLE 2 bs with
  | some ([c, m], r1) =>
    match readWordsLE c r1 with
    | some (lats, r2) =>
      match readWordsLE c r2 with
      | some (lons, r3) =>
        match readWordsLE c r3 with
        | some (vals, r4) => if r4 = [] then some (c, m, lats, lons, vals) else none
        | none => none
      | none => none
    | none => none
  | _ => none

/-- Suffix test on character lists, the semantics of str.endswith. -/
def endsWithChars (s suf : List Char) : Bool :=
  decide (suf.length ≤ s.length) && (s.drop (s.length - suf.length) == suf)

/-- str.endswith for the model, via the underlying character lists. -/
def strEndsWith (s suf : String) : Bool :=
  endsWithChars s.data suf.data

/-- f.endswith(('.HDF5', '.nc', '.nc4')). -/
def recognizedExt (f : String) : Bool :=
  strEndsWith f ".HDF5" || strEndsWith f ".nc" || strEndsWith f ".nc4"

/-- list_available_files(): [] when the data directory does not exist,
    otherwise the directory entries with a recognized extension.  The
    directory state is modelled as none (absent) or some listing. -/
def listAvailableFiles (dirListing : Option (List String)) : List String :=
  match dirListing with
  | none => []
  | some fs => fs.filter recognizedExt

/-- Specification-side description of one row of the grid as cells
    (row index i, column index starting at j, value). -/
def cellsRowAux (i : Nat) : Nat → List Rat → List (Nat × Nat × Rat)
  | _, [] => []
  | j, v :: vs => (i, j, v) :: cellsRowAux i (j + 1) vs

/-- Specification-side description of the grid as cells, rows from i. -/
def cellsAux : Nat → List (List Rat) → List (Nat × Nat × Rat)
  | _, [] => []
  | i, row :: rest => cellsRowAux i 0 row ++ cellsAux (i + 1) rest

/-- Specification-side row-major enumeration of all cells of the grid as
    (row index, column index, value) triples. -/
def rowMajorCells (data : List (List Rat)) : List (Nat × Nat × Rat) :=
  cellsAux 0 data

/-- Concrete dataset used as a witness input: 2 latitudes, 3 longitudes,
    values indexed (lat, lon). -/
def dsOk : Dataset :=
  { vars := ["precipitation"]
    lats := [0, 1]
    lons := [0, 1, 2]
    values := [[1, 2, 3], [4, 5, 6]] }

/-- The same grid but with no recognized variable name. -/
def dsNoVar : Dataset :=
  { dsOk with vars := ["temperature"] }

/-- A dataset whose selected variable has zero elements. -/
def dsEmpty : Dataset :=
  { vars := ["precipitation"], lats := [], lons := [], values := [] }

/-- Environment in which everything succeeds. -/
def envOk : Env :=
  { pathExists := true
    groupedOpenOk := true
    ungroupedOpenOk := true
    dsGrouped := dsOk
    dsUngrouped := dsOk
    selRaises := false }

/-- Environment whose dataset carries no recognized variable. -/
def envNoVar : Env :=
  { envOk with dsGrouped := dsNoVar, dsUngrouped := dsNoVar }

/-- A bounding box covering the whole concrete grid. -/
def bFull : Bounds :=
  { top := 1, bottom := 0, left := 0, right := 2 }

/-- A bounding box entirely outside the concrete grid's coordinates. -/
def bOutside : Bounds :=
  { top := 60, bottom := 50, left := 50, right := 60 }

/-- Environment whose resolved path does not exist. -/
def envMissing : Env :=
  { envOk with pathExists := false }

/-- Element read at the length of a list prefix: the head of the rest. -/
theorem getD_append_len {α : Type} (l : List α) (a : α) (tl : List α) (d : α) :
    (l ++ a :: tl).getD l.length d = a := by
  induction l with
  | nil => rfl
  | cons x xs ih => simpa [List.getD] using ih

/-- The row part of np.where is the projection of the filtered row cells. -/
theorem rowWhere_eq_cells (t : Rat) (i : Nat) (row : List Rat) : ∀ j : Nat,
    rowWhere t i j row =
      ((cellsRowAux i j row).filter (fun c => decide (t < c.2.2))).map
        (fun c => (c.1, c.2.1)) := by
  induction row with
  | nil => intro _; rfl
  | cons v vs ih =>
    intro j
    by_cases h : t < v <;>
      simp [rowWhere, cellsRowAux, List.filter_cons, h, ih]

/-- np.where over the rows is the projection of the filtered cells. -/
theorem whereAux_eq_cells (t : Rat) (rows : List (List Rat)) : ∀ i : Nat,
    whereAux t i rows =
      ((cellsAux i rows).filter (fun c => decide (t < c.2.2))).map
        (fun c => (c.1, c.2.1)) := by
  induction rows with
  | nil => intro _; rfl
  | cons row rest ih =>
    intro i
    simp [whereAux, cellsAux, List.filter_append, rowWhere_eq_cells, ih]

/-- Cells of one row carry their own row index and the value the row holds
    at their column index. -/
theorem cellsRowAux_mem (i : Nat) (row : List Rat) :
    ∀ (pre : List Rat) (c : Nat × Nat × Rat),
      c ∈ cellsRowAux i pre.length row →
        c.1 = i ∧ (pre ++ row).getD c.2.1 0 = c.2.2 := by
  induction row with
  | nil => intro pre c hc; simp [cellsRowAux] at hc
  | cons v vs ih =>
    intro pre c hc
    rw [cellsRowAux, List.mem_cons] at hc
    rcases hc with hc | hc
    · subst hc
      exact ⟨rfl, getD_append_len pre v vs 0⟩
    · have h2 := ih (pre ++ [v]) c (by simpa using hc)
      refine ⟨h2.1, ?_⟩
      simpa [List.append_assoc] using h2.2

/-- Cells of the grid carry the value the grid holds at their indices. -/
theorem cellsAux_getD (rows : List (List Rat)) :
    ∀ (preRows : List (List Rat)) (c : Nat × Nat × Rat),
      c ∈ cellsAux preRows.length rows →
        ((preRows ++ rows).getD c.1 []).getD c.2.1 0 = c.2.2 := by
  induction rows with
  | nil => intro pre c hc; simp [cellsAux] at hc
  | cons row rest ih =>
    intro pre c hc
    rw [cellsAux, List.mem_append] at hc
    rcases hc with hc | hc
    · have h := cellsRowAux_mem pre.length row [] c (by simpa using hc)
      rw [h.1, getD_append_len pre row rest []]
      simpa using h.2
    · have h2 := ih (pre ++ [row]) c (by simpa using hc)
      simpa [List.append_assoc] using h2

/-- Every cell of the grid holds the value the grid holds there. -/
theorem rowMajorCells_getD (data : List (List Rat)) (c : Nat × Nat × Rat)
    (hc : c ∈ rowMajorCells data) :
    ((data.getD c.1 []).getD c.2.1 0) = c.2.2 := by
  simpa using cellsAux_getD data [] c (by simpa [rowMajorCells] using hc)

/-- np.where on the whole grid, as filtered row-major cells. -/
theorem wherePairs_eq_cells (data : List (List Rat)) (t : Rat) :
    wherePairs data t =
      ((rowMajorCells data).filter (fun c => decide (t < c.2.2))).map
        (fun c => (c.1, c.2.1)) := by
  simpa [wherePairs, rowMajorCells] using whereAux_eq_cells t data 0

/-- The values of one row's cells are the row itself. -/
theorem cellsRowAux_map_val (i : Nat) (row : List Rat) : ∀ j : Nat,
    (cellsRowAux i j row).map (fun c => c.2.2) = row := by
  induction row with
  | nil => intro _; rfl
  | cons v vs ih => intro j; simp [cellsRowAux, ih]

/-- The values of the grid's cells are the flattened grid. -/
theorem cellsAux_map_val (rows : List (List Rat)) : ∀ i : Nat,
    (cellsAux i rows).map (fun c => c.2.2) = rows.flatten := by
  induction rows with
  | nil => intro _; rfl
  | cons row rest ih =>
    intro i
    simp [cellsAux, cellsRowAux_map_val, ih]

/-- The gathered value sequence is the row-major filter of the grid. -/
theorem validRain_eq_filter (data : List (List Rat)) (t : Rat) :
    validRain data t = data.flatten.filter (fun v => decide (t < v)) := by
  rw [validRain, wherePairs_eq_cells, List.map_map]
  have hcong :
      ((rowMajorCells data).filter (fun c => decide (t < c.2.2))).map
          ((fun p : Nat × Nat => (data.getD p.1 []).getD p.2 0) ∘ (fun c : Nat × Nat × Rat => (c.1, c.2.1)))
        = ((rowMajorCells data).filter (fun c => decide (t < c.2.2))).map (fun c => c.2.2) := by
    refine List.map_congr_left (fun c hc => ?_)
    exact rowMajorCells_getD data c (List.mem_filter.mp hc).1
  rw [hcong]
  have hfm := List.filter_map (p := fun v => decide (t < v))
    (fun c : Nat × Nat × Rat => c.2.2) (rowMajorCells data)
  have hflat : (rowMajorCells data).map (fun c => c.2.2) = data.flatten := by
    simpa [rowMajorCells] using cellsAux_map_val data 0
  rw [← hflat, hfm]
  rfl

/-- The seed is below a fold of max. -/
theorem le_foldl_max_seed (xs : List Rat) : ∀ s : Rat, s ≤ xs.foldl max s := by
  induction xs with
  | nil => intro s; simp
  | cons a as ih =>
    intro s
    exact le_trans (le_max_left s a) (ih (max s a))

/-- A fold of max is one of the folded elements or the seed. -/
theorem foldl_max_mem (xs : List Rat) : ∀ x : Rat, xs.foldl max x ∈ x :: xs := by
  induction xs with
  | nil => intro x; simp
  | cons a as ih =>
    intro x
    rcases List.mem_cons.mp (ih (max x a)) with h | h
    · rw [List.foldl_cons, h]
      rcases max_choice x a with hh | hh <;> simp [hh]
    · simp only [List.foldl_cons]
      exact List.mem_cons_of_mem x (List.mem_cons_of_mem a h)

/-- A fold of max bounds the folded elements and the seed. -/
theorem foldl_max_le (xs : List Rat) : ∀ x y : Rat, y ∈ x :: xs → y ≤ xs.foldl max x := by
  induction xs with
  | nil => intro x y hy; simp at hy; simp [hy]
  | cons a as ih =>
    intro x y hy
    rw [List.foldl_cons]
    rcases List.mem_cons.mp hy with h | h
    · rw [h]
      exact le_trans (le_max_left x a) (le_foldl_max_seed as (max x a))
    · rcases List.mem_cons.mp h with h2 | h2
      · rw [h2]
        exact le_trans (le_max_right x a) (le_foldl_max_seed as (max x a))
      · exact ih (max x a) y (List.mem_cons_of_mem (max x a) h2)

/-- C1: the claim that maxVal always equals the true grid maximum,
    independent of the threshold, fails on the code: on the grid [[5]]
    with threshold 10 the filtered count is 0, the true grid maximum is 5,
    and the sparse extraction returns max_val = 0. -/
theorem C1_counterexample :
    npMax [[(5 : Rat)]] = some 5
  ∧ maxVal [[(5 : Rat)]] 10 = 0
  ∧ maxVal [[(5 : Rat)]] 10 ≠ 5 := by
  refine ⟨rfl, rfl, ?_⟩
  decide

/-- C1 (amended): whenever at least one cell exceeds the threshold,
    maxVal equals the true maximum over the entire grid (a member of the
    grid bounding all members); when no cell exceeds the threshold, maxVal
    is 0 regardless of the true grid maximum. -/
theorem C1_amended (data : List (List Rat)) (t : Rat) :
    (0 < (validRain data t).length →
      ∃ m, npMax data = some m ∧ maxVal data t = m
        ∧ m ∈ data.flatten ∧ ∀ x ∈ data.flatten, x ≤ m)
  ∧ ((validRain data t).length = 0 → maxVal data t = 0) := by
  constructor
  · intro h
    have hne : data.flatten ≠ [] := by
      intro hempty
      rw [validRain_eq_filter, hempty] at h
      simp at h
    rcases hj : data.flatten with _ | ⟨x, xs⟩
    · exact absurd hj hne
    · refine ⟨xs.foldl max x, ?_, ?_, ?_, ?_⟩
      · simp [npMax, hj]
      · simp [maxVal, h, npMax, hj]
      · exact foldl_max_mem xs x
      · exact foldl_max_le xs x
  · intro h
    simp [maxVal, h]

/-- C1 witness: the spec scenario grid [[0, 0.2], [0.05, 5]] with
    threshold 0.1, scaled by 100 to [[0, 20], [5, 500]] with threshold 10:
    the count is positive and maxVal is the true maximum. -/
theorem C1_amended_witness :
    ∃ m, npMax [[(0 : Rat), 20], [5, 500]] = some m
      ∧ maxVal [[(0 : Rat), 20], [5, 500]] 10 = m
      ∧ m ∈ ([[(0 : Rat), 20], [5, 500]] : List (List Rat)).flatten
      ∧ ∀ x ∈ ([[(0 : Rat), 20], [5, 500]] : List (List Rat)).flatten, x ≤ m :=
  (C1_amended [[(0 : Rat), 20], [5, 500]] 10).1 (by decide)

/-- C2: the code releases the dataset handle only on the successful return
    path.  On a dataset with no recognized variable name, all three service
    functions terminate with VariableNotFound and the trace holds the open
    event but no close event; on the success path each closes exactly once.
    This contradicts the claim that the handle is released on every exit
    path, which the spec itself marks as the intent. -/
theorem C2_bug :
    (extractCloudArrays envNoVar bFull 0).1 = Except.error Err.VariableNotFound
  ∧ (extractCloudArrays envNoVar bFull 0).2 = [Event.openGrouped]
  ∧ Event.close ∉ (extractCloudArrays envNoVar bFull 0).2
  ∧ (processLocalFile envNoVar bFull).1 = Except.error Err.VariableNotFound
  ∧ Event.close ∉ (processLocalFile envNoVar bFull).2
  ∧ (getSparseCloudData envNoVar bFull 0).1 = Except.error Err.VariableNotFound
  ∧ Event.close ∉ (getSparseCloudData envNoVar bFull 0).2
  ∧ (extractCloudArrays envOk bFull 0).2.count Event.close = 1
  ∧ (processLocalFile envOk bFull).2.count Event.close = 1
  ∧ (getSparseCloudData envOk bFull 0).2.count Event.close = 1 := by
  refine ⟨rfl, rfl, by decide, rfl, by decide, rfl, by decide, ?_, ?_, ?_⟩ <;> rfl

/-- C3: the claim that an empty selection falls back to the full dataset
    in every pipeline entry point fails on get_sparse_cloud_data: for a
    bounding box outside the grid the selection succeeds with zero
    elements, get_sparse_cloud_data keeps the empty crop (unlike the other
    two entry points) and the request then fails at np.max of an empty
    array instead of serving the full grid. -/
theorem C3_counterexample :
    varSize (selDataset dsOk (cropSlices bOutside)) = 0
  ∧ cropNoSizeFallback dsOk (trySel envOk dsOk (cropSlices bOutside)) ≠ dsOk
  ∧ cropFallbackSize dsOk (trySel envOk dsOk (cropSlices bOutside)) = dsOk
  ∧ (getSparseCloudData envOk bOutside 0).1 = Except.error Err.ProcessingFailure
  ∧ (extractCloudArrays envOk bOutside 0).1 =
      Except.ok { lats := [0, 0, 0, 1, 1, 1], lons := [0, 1, 2, 0, 1, 2],
                  vals := [1, 2, 3, 4, 5, 6], maxVal := 6 }
  ∧ (processLocalFile envOk bOutside).1 =
      Except.ok { lats := [0, 1], lons := [0, 1, 2], values := [[1, 2, 3], [4, 5, 6]] } := by
  refine ⟨rfl, by decide, rfl, rfl, rfl, rfl⟩

/-- C3 (amended): a selection error falls back to the unmodified full
    dataset in all entry points; a successful selection with zero elements
    falls back only in _extract_cloud_arrays and process_local_file
    (cropFallbackSize), while get_sparse_cloud_data (cropNoSizeFallback)
    keeps the selected dataset unconditionally. -/
theorem C3_amended (ds c : Dataset) (e : Unit) :
    cropFallbackSize ds (Except.error e) = ds
  ∧ cropNoSizeFallback ds (Except.error e) = ds
  ∧ (varSize c = 0 → cropFallbackSize ds (Except.ok c) = ds)
  ∧ (varSize c ≠ 0 → cropFallbackSize ds (Except.ok c) = c)
  ∧ cropNoSizeFallback ds (Except.ok c) = c := by
  refine ⟨rfl, rfl, ?_, ?_, rfl⟩
  · intro h
    simp [cropFallbackSize, h]
  · intro h
    simp [cropFallbackSize, h]

/-- C3 witness: on a concrete empty selection the sized fallback keeps the
    full dataset, the unsized one keeps the empty crop; a selection error
    falls back in both. -/
theorem C3_amended_witness :
    cropFallbackSize dsOk (Except.ok dsEmpty) = dsOk
  ∧ cropNoSizeFallback dsOk (Except.ok dsEmpty) = dsEmpty
  ∧ cropFallbackSize dsOk (Except.error ()) = dsOk :=
  ⟨(C3_amended dsOk dsEmpty ()).2.2.1 (by decide),
   (C3_amended dsOk dsEmpty ()).2.2.2.2,
   (C3_amended dsOk dsEmpty ()).1⟩

/-- Reassembling the four little-endian bytes of a word below 2^32
    recovers the word. -/
theorem leBytes4_readback (w : Nat) (h : w < 4294967296) :
    w % 256 + 256 * (w / 256 % 256) + 65536 * (w / 65536 % 256)
      + 16777216 * (w / 16777216 % 256) = w := by
  omega

/-- Serialization of a cons cell of a float32 array. -/
theorem f32Bytes_cons (w : Nat) (ws : List Nat) :
    f32Bytes (w :: ws) = leBytes4 w ++ f32Bytes ws := rfl

/-- A float32 array serializes to four bytes per element. -/
theorem f32Bytes_length (ws : List Nat) : (f32Bytes ws).length = 4 * ws.length := by
  induction ws with
  | nil => rfl
  | cons w ws ih =>
    rw [f32Bytes_cons, List.length_append, ih, List.length_cons]
    simp [leBytes4]
    omega

/-- Reading back as many words as were serialized consumes exactly the
    serialized bytes and recovers the words. -/
theorem readWordsLE_f32Bytes (ws : List Nat) :
    ∀ rest : List Nat, (∀ w ∈ ws, w < 4294967296) →
      readWordsLE ws.length (f32Bytes ws ++ rest) = some (ws, rest) := by
  induction ws with
  | nil => intro rest _; rfl
  | cons w ws ih =>
    intro rest hw
    have hb : f32Bytes (w :: ws) ++ rest =
        w % 256 :: w / 256 % 256 :: w / 65536 % 256 :: w / 16777216 % 256 ::
          (f32Bytes ws ++ rest) := by
      simp [f32Bytes_cons, leBytes4]
    rw [List.length_cons, hb, readWordsLE,
      ih rest (fun x hx => hw x (List.mem_cons_of_mem w hx)),
      leBytes4_readback w (hw w (List.mem_cons_self w ws))]

/-- The 8-byte header is the serialization of the two header words. -/
theorem binPayload_header (lats lons vals : List Nat) (maxBits : Nat) :
    binPayload lats lons vals maxBits =
      f32Bytes [vals.length, maxBits] ++
        (f32Bytes lats ++ (f32Bytes lons ++ (f32Bytes vals ++ []))) := by
  simp [binPayload, f32Bytes, List.append_assoc]

/-- C4: for parallel point arrays of length count (with 32-bit values, as
    float32 patterns and a count struct.pack accepts), the binary payload
    is exactly 8 + 12 * count bytes, and decoding the header's count and
    reading count-sized latitude, longitude and value arrays exactly
    consumes the payload, recovering every field. -/
theorem C4_bin (lats lons vals : List Nat) (maxBits : Nat)
    (h1 : lats.length = vals.length) (h2 : lons.length = vals.length)
    (hw : ∀ w ∈ lats ++ lons ++ vals, w < 4294967296)
    (hc : vals.length < 4294967296) (hm : maxBits < 4294967296) :
    (binPayload lats lons vals maxBits).length = 8 + 12 * vals.length
  ∧ decodeBin (binPayload lats lons vals maxBits) =
      some (vals.length, maxBits, lats, lons, vals) := by
  have hwl : ∀ w ∈ lats, w < 4294967296 := by
    intro w hm2; exact hw w (by simp [hm2])
  have hwo : ∀ w ∈ lons, w < 4294967296 := by
    intro w hm2; exact hw w (by simp [hm2])
  have hwv : ∀ w ∈ vals, w < 4294967296 := by
    intro w hm2; exact hw w (by simp [hm2])
  constructor
  · simp [binPayload, leBytes4, f32Bytes_length, h1, h2]
    omega
  · have hhead : ∀ w ∈ [vals.length, maxBits], w < 4294967296 := by
      intro w hm2
      rcases List.mem_cons.mp hm2 with h | h
      · rw [h]; exact hc
      · simp at h; rw [h]; exact hm
    have e1 : readWordsLE 2
        (f32Bytes [vals.length, maxBits] ++
          (f32Bytes lats ++ (f32Bytes lons ++ (f32Bytes vals ++ [])))) =
        some ([vals.length, maxBits],
          f32Bytes lats ++ (f32Bytes lons ++ (f32Bytes vals ++ []))) :=
      readWordsLE_f32Bytes [vals.length, maxBits]
        (f32Bytes lats ++ (f32Bytes lons ++ (f32Bytes vals ++ []))) hhead
    have e2 : readWordsLE vals.length (f32Bytes lats ++ (f32Bytes lons ++ (f32Bytes vals ++ []))) =
        some (lats, f32Bytes lons ++ (f32Bytes vals ++ [])) :=
      h1 ▸ readWordsLE_f32Bytes lats (f32Bytes lons ++ (f32Bytes vals ++ [])) hwl
    have e3 : readWordsLE vals.length (f32Bytes lons ++ (f32Bytes vals ++ [])) =
        some (lons, f32Bytes vals ++ []) :=
      h2 ▸ readWordsLE_f32Bytes lons (f32Bytes vals ++ []) hwo
    have e4 : readWordsLE vals.length (f32Bytes vals ++ []) = some (vals, []) :=
      readWordsLE_f32Bytes vals [] hwv
    rw [binPayload_header]
    simp only [decodeBin, e1, e2, e3, e4]
    simp

/-- C4 witness: a concrete two-point payload has 8 + 12 * 2 bytes and
    decodes back to its fields. -/
theorem C4_bin_witness :
    (binPayload [1, 2] [3, 4] [5, 6] 7).length = 8 + 12 * [5, 6].length
  ∧ decodeBin (binPayload [1, 2] [3, 4] [5, 6] 7) =
      some ([5, 6].length, 7, [1, 2], [3, 4], [5, 6]) :=
  C4_bin [1, 2] [3, 4] [5, 6] 7 rfl rfl (by decide) (by decide) (by decide)

/-- C5: the sparse filter's value sequence is exactly the row-major filter
    of the grid at the strict threshold, its length (the count) is the
    number of cells strictly greater than the threshold, the coordinate
    sequences are parallel to it with the same length, and the zipped
    triples are exactly the cells of the row-major scan that pass the
    threshold, each paired with its latitude and longitude. -/
theorem C5_sparse (data : List (List Rat)) (lats lons : List Rat) (t : Rat) :
    validRain data t = data.flatten.filter (fun v => decide (t < v))
  ∧ (validRain data t).length = data.flatten.countP (fun v => decide (t < v))
  ∧ (validLats data lats t).length = (validRain data t).length
  ∧ (validLons data lons t).length = (validRain data t).length
  ∧ ((validLats data lats t).zip (validLons data lons t)).zip (validRain data t)
      = ((rowMajorCells data).filter (fun c => decide (t < c.2.2))).map
          (fun c => ((lats.getD c.1 0, lons.getD c.2.1 0), c.2.2)) := by
  refine ⟨validRain_eq_filter data t, ?_, ?_, ?_, ?_⟩
  · rw [validRain_eq_filter, List.countP_eq_length_filter]
  · simp [validLats, validRain]
  · simp [validLons, validRain]
  · rw [validLats, validLons, validRain, List.zip_map', List.zip_map',
      wherePairs_eq_cells, List.map_map]
    refine List.map_congr_left (fun c hc => ?_)
    have hv := rowMajorCells_getD data c (List.mem_filter.mp hc).1
    show ((lats.getD c.1 0, lons.getD c.2.1 0), (data.getD c.1 []).getD c.2.1 0)
        = ((lats.getD c.1 0, lons.getD c.2.1 0), c.2.2)
    rw [hv]

/-- C6: swapping the top/bottom edges, the left/right edges, or both in
    the bounding box leaves the min/max slices unchanged, hence the crop
    selection and all three pipeline entry points give identical results
    on the swapped boxes. -/
theorem C6_swap (env : Env) (ds : Dataset) (b : Bounds) (t : Rat) :
    cropSlices (swapTB b) = cropSlices b
  ∧ cropSlices (swapLR b) = cropSlices b
  ∧ cropSlices (swapTB (swapLR b)) = cropSlices b
  ∧ selDataset ds (cropSlices (swapTB b)) = selDataset ds (cropSlices b)
  ∧ selDataset ds (cropSlices (swapLR b)) = selDataset ds (cropSlices b)
  ∧ extractCloudArrays env (swapTB b) t = extractCloudArrays env b t
  ∧ extractCloudArrays env (swapLR b) t = extractCloudArrays env b t
  ∧ extractCloudArrays env (swapTB (swapLR b)) t = extractCloudArrays env b t
  ∧ processLocalFile env (swapTB b) = processLocalFile env b
  ∧ processLocalFile env (swapLR b) = processLocalFile env b
  ∧ processLocalFile env (swapTB (swapLR b)) = processLocalFile env b
  ∧ getSparseCloudData env (swapTB b) t = getSparseCloudData env b t
  ∧ getSparseCloudData env (swapLR b) t = getSparseCloudData env b t
  ∧ getSparseCloudData env (swapTB (swapLR b)) t = getSparseCloudData env b t := by
  have hTB : cropSlices (swapTB b) = cropSlices b := by
    simp [cropSlices, swapTB, min_comm, max_comm]
  have hLR : cropSlices (swapLR b) = cropSlices b := by
    simp [cropSlices, swapLR, min_comm, max_comm]
  have hBoth : cropSlices (swapTB (swapLR b)) = cropSlices b := by
    simp [cropSlices, swapTB, swapLR, min_comm, max_comm]
  refine ⟨hTB, hLR, hBoth, by rw [hTB], by rw [hLR],
    ?_, ?_, ?_, ?_, ?_, ?_, ?_, ?_, ?_⟩ <;>
    simp only [extractCloudArrays, processLocalFile, getSparseCloudData,
      hTB, hLR, hBoth]

/-- C7: when the squeezed value array is shaped (lonCount, latCount), the
    orientation normalizer transposes it, and the result is shaped
    (latCount, lonCount): its row count is len(lats) and every row has
    length len(lons). -/
theorem C7_orient (d : List (List Rat)) (lats lons : List Rat)
    (hsh : shape2 d = (lons.length, lats.length)) :
    orientData d lats lons = transposeIdx d
  ∧ (orientData d lats lons).length = lats.length
  ∧ ∀ row ∈ orientData d lats lons, row.length = lons.length := by
  have hd : d.length = lons.length ∧ (d.headD []).length = lats.length := by
    have h1 := congrArg Prod.fst hsh
    have h2 := congrArg Prod.snd hsh
    exact ⟨h1, h2⟩
  have h1 : orientData d lats lons = transposeIdx d := by
    simp [orientData, hsh]
  refine ⟨h1, ?_, ?_⟩
  · rw [h1, transposeIdx, List.length_map, List.length_range]
    exact hd.2
  · rw [h1]
    intro row hr
    rw [transposeIdx] at hr
    obtain ⟨j, _, hrow⟩ := List.mem_map.mp hr
    rw [← hrow, List.length_map]
    exact hd.1

/-- C7 witness: the spec scenario, a field shaped (lonCount = 3,
    latCount = 2) with values [[1,5],[2,6],[3,7]], is normalized to the
    (2,3) array with row 0 = [1,2,3] and row 1 = [5,6,7]. -/
theorem C7_orient_witness :
    orientData [[1, 5], [2, 6], [3, 7]] [10, 20] [30, 40, 50] = [[1, 2, 3], [5, 6, 7]] :=
  (C7_orient [[1, 5], [2, 6], [3, 7]] [10, 20] [30, 40, 50] (by decide)).1.trans (by decide)

/-- C8: the schema resolver returns the first present name in the fixed
    priority order precipitationCal, precipitation, precip; in particular
    a dataset exposing precipitationCal always resolves to it, and when no
    candidate is present every service function terminates with
    VariableNotFound for any dataset the opener yields. -/
theorem C8_resolver (ds : Dataset) :
    (ds.vars.contains "precipitationCal" = true →
      resolveVar ds = some "precipitationCal")
  ∧ (ds.vars.contains "precipitationCal" = false →
      ds.vars.contains "precipitation" = true →
      resolveVar ds = some "precipitation")
  ∧ (ds.vars.contains "precipitationCal" = false →
      ds.vars.contains "precipitation" = false →
      ds.vars.contains "precip" = true →
      resolveVar ds = some "precip")
  ∧ (ds.vars.contains "precipitationCal" = false →
      ds.vars.contains "precipitation" = false →
      ds.vars.contains "precip" = false →
      resolveVar ds = none)
  ∧ (resolveVar ds = none → ∀ (env : Env) (s : Slices) (t : Rat),
      (openDataset env).1 = Except.ok ds →
        (extractCloudArraysS env s t).1 = Except.error Err.VariableNotFound
      ∧ (processLocalFileS env s).1 = Except.error Err.VariableNotFound
      ∧ (getSparseCloudDataS env s t).1 = Except.error Err.VariableNotFound) := by
  refine ⟨?_, ?_, ?_, ?_, ?_⟩
  · intro h1
    rw [resolveVar, candidates, List.find?_cons_of_pos _ h1]
  · intro h1 h2
    rw [resolveVar, candidates, List.find?_cons_of_neg _ (by rw [h1]; simp),
      List.find?_cons_of_pos _ h2]
  · intro h1 h2 h3
    rw [resolveVar, candidates, List.find?_cons_of_neg _ (by rw [h1]; simp),
      List.find?_cons_of_neg _ (by rw [h2]; simp), List.find?_cons_of_pos _ h3]
  · intro h1 h2 h3
    rw [resolveVar, candidates, List.find?_cons_of_neg _ (by rw [h1]; simp),
      List.find?_cons_of_neg _ (by rw [h2]; simp), List.find?_cons_of_neg _ (by rw [h3]; simp),
      List.find?_nil]
  · intro hnone env s t hopen
    rcases hO : openDataset env with ⟨r, evs⟩
    rw [hO] at hopen
    simp only at hopen
    subst hopen
    refine ⟨?_, ?_, ?_⟩ <;>
      simp [extractCloudArraysS, processLocalFileS, getSparseCloudDataS, hO, hnone]

/-- C8 witness: a dataset exposing both precipitationCal and
    precipitation resolves to precipitationCal. -/
theorem C8_resolver_witness :
    resolveVar { vars := ["precipitationCal", "precipitation"],
                 lats := [], lons := [], values := [] } = some "precipitationCal" :=
  (C8_resolver _).1 (by decide)

/-- C9: when the resolved path does not exist every entry point fails with
    NotFound and no open attempt is recorded; OpenFailure implies the path
    existed and both the grouped and the ungrouped attempt were made and
    failed, so a missing file can never surface as OpenFailure. -/
theorem C9_open (env : Env) (b : Bounds) (t : Rat) :
    (env.pathExists = false →
        openDataset env = (Except.error Err.NotFound, [])
      ∧ extractCloudArrays env b t = (Except.error Err.NotFound, [])
      ∧ processLocalFile env b = (Except.error Err.NotFound, [])
      ∧ getSparseCloudData env b t = (Except.error Err.NotFound, []))
  ∧ ((openDataset env).1 = Except.error Err.OpenFailure →
        env.pathExists = true ∧ env.groupedOpenOk = false ∧ env.ungroupedOpenOk = false
      ∧ (openDataset env).2 = [Event.openGrouped, Event.openUngrouped]) := by
  constructor
  · intro h
    have hO : openDataset env = (Except.error Err.NotFound, []) := by
      simp [openDataset, h]
    refine ⟨hO, ?_, ?_, ?_⟩ <;>
      simp [extractCloudArrays, extractCloudArraysS, processLocalFile,
        processLocalFileS, getSparseCloudData, getSparseCloudDataS, hO]
  · rcases env with ⟨pe, go, uo, dsg, dsu, sr⟩
    cases pe <;> cases go <;> cases uo <;> simp [openDataset]

/-- C9 witness: with the path absent, all entry points return NotFound
    with an empty event trace. -/
theorem C9_open_witness :
    openDataset envMissing = (Except.error Err.NotFound, [])
  ∧ extractCloudArrays envMissing bFull 0 = (Except.error Err.NotFound, [])
  ∧ processLocalFile envMissing bFull = (Except.error Err.NotFound, [])
  ∧ getSparseCloudData envMissing bFull 0 = (Except.error Err.NotFound, []) :=
  (C9_open envMissing bFull 0).1 rfl

/-- C10: the file listing is total: it returns the empty list when the
    data directory is absent, and otherwise exactly the entries whose
    names end in .HDF5, .nc or .nc4. -/
theorem C10_list (fs : List String) (f : String) :
    listAvailableFiles none = []
  ∧ listAvailableFiles (some fs) = fs.filter recognizedExt
  ∧ (f ∈ listAvailableFiles (some fs) ↔
      f ∈ fs ∧ (strEndsWith f ".HDF5" || strEndsWith f ".nc" || strEndsWith f ".nc4") = true) := by
  refine ⟨rfl, rfl, ?_⟩
  simp [listAvailableFiles, List.mem_filter, recognizedExt]

/-- C10 witness: a concrete listing keeps the recognized extensions. -/
theorem C10_list_witness :
    "a.HDF5" ∈ listAvailableFiles (some ["a.HDF5", "b.txt", "c.nc4"]) :=
  (C10_list ["a.HDF5", "b.txt", "c.nc4"] "a.HDF5").2.2.mpr (by decide)

end Gpm
